import Mathlib

/-!
Shallow embedding of the tabular filter pipeline of
`cllm_data_curation/thestack_curation/curation_utils.py`.

The embedded functions are translated line-by-line from the Python source:

* `filter_parquet_file` (source lines 64-169): the seven-stage funnel over a
  row table, with the rejection-ledger bookkeeping modelled exactly as the
  pandas code performs it.  A row table is a `List Row`; the pandas integer
  index is made explicit by enumerating the rows with their original
  positions (`List.enum`), because the source's ledger bookkeeping
  (`pd.concat(...).sort_index()`) operates on that index.
* `test_source_code_compatible` (source lines 340-363): the stage-7
  predicate.  The call `ast.parse` is an external collaborator (Python
  standard library); its outcome is abstracted as a `ParseOutcome`
  (success, SyntaxError, ValueError - the failure modes the source's
  `except` clauses distinguish), and the pipeline receives the collaborator
  as a function `parse : String -> ParseOutcome`.
* `glob_pq_paths` (source lines 263-277): the three-pattern glob probe.
  The filesystem glob is an external collaborator; the function receives
  the match list of each of the three patterns.

Numeric representation: `file_size` and `max_ll` are 32-bit integers in the
source (downcast in `open_pq_as_df`); they are modelled as `Int` (all
thresholds and data stay far from the 32-bit range, so wrap-around never
occurs in the modelled paths).  `ave_ll` and `alphanum_frac` are 32-bit
floats modelled as `Rat`; the only float-specific behaviour the source
relies on is division by zero in stage 6 (numpy: `x / 0.0` is `+inf` for
`x > 0`, `nan` for `x = 0`, `-inf` for `x < 0`, and any comparison with
`nan` is false), which is modelled by an explicit case split in
`stage6pass`; away from the zero divisor the exact rational value is used.

Python's floor division `//` is `Int.fdiv`.
-/

namespace Curation

/-- One row of the canonical (slim) table, with the column names produced by
`open_pq_as_df` (source lines 194-195): `repo_name, file_ext, content,
file_size, max_ll, ave_ll, alphanum_frac, repo_lang`.  The spec's
`max_line_length` / `avg_line_length` / `alphanum_fraction` are the columns
`max_ll` / `ave_ll` / `alphanum_frac`. -/
structure Row where
  repo_name : String
  file_ext : String
  content : String
  file_size : Int
  max_ll : Int
  ave_ll : Rat
  alphanum_frac : Rat
  repo_lang : String
  deriving DecidableEq, Repr

/-- The eight numeric thresholds of `filter_parquet_file` (source lines
65-66) / a `FilterConfig` dataclass of `curation_configs.py`. -/
structure FilterConfig where
  max_ll : Int
  min_len : Int
  min_max_ll : Int
  max_size_kbs : Int
  min_alphanum : Rat
  max_alphanum : Rat
  min_ave_ll : Int
  min_lines : Int
  deriving DecidableEq, Repr

/-- The keyword defaults of `filter_parquet_file` (source lines 65-66). -/
def defaultConfig : FilterConfig :=
  { max_ll := 600, min_len := 50, min_max_ll := 25, max_size_kbs := 1000,
    min_alphanum := 0.001, max_alphanum := 0.975, min_ave_ll := 16, min_lines := 3 }

/-- `ModerateFilterConfig` of `curation_configs.py` (lines 17-25). -/
def moderateConfig : FilterConfig :=
  { max_ll := 600, min_len := 50, min_max_ll := 25, max_size_kbs := 750,
    min_alphanum := 0.001, max_alphanum := 0.975, min_ave_ll := 16, min_lines := 3 }

/-- `PermissiveFilterConfig` of `curation_configs.py` (lines 5-13). -/
def permissiveConfig : FilterConfig :=
  { max_ll := 1200, min_len := 8, min_max_ll := 5, max_size_kbs := 1000,
    min_alphanum := 0.0001, max_alphanum := 0.99, min_ave_ll := 8, min_lines := 2 }

/-- `AggressiveFilterConfig` of `curation_configs.py` (lines 30-38). -/
def aggressiveConfig : FilterConfig :=
  { max_ll := 300, min_len := 100, min_max_ll := 32, max_size_kbs := 500,
    min_alphanum := 0.0025, max_alphanum := 0.97, min_ave_ll := 20, min_lines := 5 }

/-- The rejection-reason tags written into the `reason` column
(source lines 105, 114, 123, 133, 142, 151, 159). -/
inductive Reason where
  | max_ll
  | file_too_small
  | file_too_large
  | alphanum_frac
  | ave_ll
  | min_lines
  | python2
  deriving DecidableEq, Repr

/-- Outcome of the external `ast.parse` collaborator: success, or one of the
two exception classes the source's `except` clauses distinguish
(SyntaxError, ValueError). -/
inductive ParseOutcome where
  | ok
  | synError
  | valError
  deriving DecidableEq, Repr

/-- `test_source_code_compatible` (source lines 340-363): returns `true`
when `ast.parse` succeeds, `false` when it raises SyntaxError or
ValueError. -/
def test_source_code_compatible : ParseOutcome → Bool
  | ParseOutcome.ok => true
  | ParseOutcome.synError => false
  | ParseOutcome.valError => false

/-- Stage-1 mask (source line 99):
`(_df.max_ll <= max_ll) & (_df.max_ll >= min_max_ll)`. -/
def stage1pass (cfg : FilterConfig) (r : Row) : Bool :=
  decide (r.max_ll ≤ cfg.max_ll) && decide (r.max_ll ≥ cfg.min_max_ll)

/-- Stage-2 mask (source line 108): `_df.file_size >= min_len`. -/
def stage2pass (cfg : FilterConfig) (r : Row) : Bool :=
  decide (r.file_size ≥ cfg.min_len)

/-- Stage-3 mask (source line 117): `_df.file_size // 1024 <= max_size_kbs`
(Python floor division, hence `Int.fdiv`). -/
def stage3pass (cfg : FilterConfig) (r : Row) : Bool :=
  decide (Int.fdiv r.file_size 1024 ≤ cfg.max_size_kbs)

/-- Stage-4 mask (source line 127):
`(_df.alphanum_frac > min_alphanum) & (_df.alphanum_frac < max_alphanum)`. -/
def stage4pass (cfg : FilterConfig) (r : Row) : Bool :=
  decide (r.alphanum_frac > cfg.min_alphanum) && decide (r.alphanum_frac < cfg.max_alphanum)

/-- Stage-5 mask (source line 136): `_df.ave_ll > min_ave_ll`. -/
def stage5pass (cfg : FilterConfig) (r : Row) : Bool :=
  decide (r.ave_ll > (cfg.min_ave_ll : Rat))

/-- Stage-6 mask (source line 145): `(_df.file_size / _df.ave_ll) >= min_lines`.
numpy float division: when `ave_ll = 0` the quotient is `+inf` (dividend
positive, comparison true), `nan` (dividend zero, comparison false) or
`-inf` (dividend negative, comparison false), so the mask is
`file_size > 0`; away from the zero divisor the exact rational quotient
is compared. -/
def stage6pass (cfg : FilterConfig) (r : Row) : Bool :=
  if r.ave_ll = 0 then decide (r.file_size > 0)
  else decide ((r.file_size : Rat) / r.ave_ll ≥ (cfg.min_lines : Rat))

/-- Stage-7 KEEP mask as the source actually computes it (line 154):
`filter_flag = ~_df.content.apply(test_source_code_compatible)` -
note the `~`: the kept rows are the ones whose content does NOT parse. -/
def stage7flag (parse : String → ParseOutcome) (r : Row) : Bool :=
  ! test_source_code_compatible (parse r.content)

/-- One ledger entry: original row position, the row, its `reason` tag. -/
abbrev LedgerEntry := Nat × Row × Reason

/-- Insert one entry into an index-sorted ledger. -/
def insertByIdx (x : LedgerEntry) : List LedgerEntry → List LedgerEntry
  | [] => [x]
  | y :: ys => if x.1 ≤ y.1 then x :: y :: ys else y :: insertByIdx x ys

/-- `.sort_index()` on the ledger (source lines 113, 122, 132, 141, 150,
158): sort the entries by their original row position. -/
def sortByIdx : List LedgerEntry → List LedgerEntry
  | [] => []
  | x :: xs => insertByIdx x (sortByIdx xs)

/-- One funnel stage exactly as the source performs it (e.g. lines 108-114):
the mask is evaluated on the incoming survivor frame, the frame is
REASSIGNED to its masked selection first (`_df = _df[filter_flag]`), and
only then is the reject capture `_df[~filter_flag]` taken - from the
already-filtered frame.  pandas aligns the boolean mask on the index, and
since the mask is a per-row function this alignment is exactly a second
filter by the negated predicate over the new frame.  The captured rows are
tagged with the stage's reason (`fillna`), appended to the ledger
(`pd.concat`) and the ledger is re-sorted by index (`sort_index`). -/
def applyStage (p : Row → Bool) (reason : Reason)
    (st : List (Nat × Row) × List LedgerEntry) : List (Nat × Row) × List LedgerEntry :=
  let survivors := st.1.filter (fun ir => p ir.2)
  let captured := survivors.filter (fun ir => ! p ir.2)
  (survivors, sortByIdx (st.2 ++ captured.map (fun ir => (ir.1, ir.2, reason))))

/-- `filter_parquet_file` (source lines 64-169), restricted to its pure
tabular core: path handling, parquet I/O and printing are external; the
function maps the loaded row table (`open_pq_as_df`, Step 1) to the pair
(kept table, rejection ledger) that Steps 9 / 9.5 persist.  The kept table
is written with `index=False`, so its original index is dropped (`map`
to the bare rows) while row order is preserved. -/
def filter_parquet_file (cfg : FilterConfig) (parse : String → ParseOutcome)
    (rows : List Row) : List Row × List LedgerEntry :=
  let df0 := rows.enum
  -- Step 2 (lines 99-100): max line-length window mask, then reassign
  let s1 := applyStage (stage1pass cfg) Reason.max_ll (df0, [])
  -- Step 3 / 3.5 (lines 108-114): minimum file size
  let s2 := applyStage (stage2pass cfg) Reason.file_too_small s1
  -- Step 4 / 4.5 (lines 117-123): maximum file size in whole KBs
  let s3 := applyStage (stage3pass cfg) Reason.file_too_large s2
  -- Step 5 / 5.5 (lines 127-133): alphanumeric fraction window
  let s4 := applyStage (stage4pass cfg) Reason.alphanum_frac s3
  -- Step 6 / 6.5 (lines 136-142): minimum average line length
  let s5 := applyStage (stage5pass cfg) Reason.ave_ll s4
  -- Step 7 / 7.5 (lines 145-151): minimum estimated line count
  let s6 := applyStage (stage6pass cfg) Reason.min_lines s5
  -- Step 8 / 8.5 (lines 154-159): the `~compatible` keep mask
  let s7 := applyStage (stage7flag parse) Reason.python2 s6
  (s7.1.map (fun ir => ir.2), s7.2)

/-- `__check_capture` inside `glob_pq_paths` (source lines 266-268):
truthy only when strictly more than `_thresh = 2` paths matched. -/
def check_capture (path_list : List String) : Bool :=
  decide (path_list.length > 2)

/-- `glob_pq_paths` (source lines 263-277) with the filesystem glob
abstracted: `m1, m2, m3` are the match lists of the three patterns
`("**", "*.parquet")`, `("*.parquet",)`, `("**", "**", "*.parquet")` in
probe order; the first list passing `__check_capture` is returned, and if
none does the `for`-`else` raises FileNotFoundError (modelled as
`Except.error`; the message's path formatting is external). -/
def glob_pq_paths (m1 m2 m3 : List String) : Except String (List String) :=
  if check_capture m1 then Except.ok m1
  else if check_capture m2 then Except.ok m2
  else if check_capture m3 then Except.ok m3
  else Except.error "FileNotFoundError"

/-! Concrete inputs used to exercise the pipeline. -/

/-- The spec's section-8 scenario row: `file_size=200, avg_line_length=20,
max_line_length=30, alphanum_fraction=0.5, content="x=1"`. -/
def sampleRow : Row :=
  { repo_name := "repo", file_ext := "py", content := "x=1", file_size := 200,
    max_ll := 30, ave_ll := 20, alphanum_frac := 0.5, repo_lang := "python" }

/-- A row violating the stage-1 window (`max_line_length = 1000 > 600`). -/
def c1row : Row := { sampleRow with max_ll := 1000 }

/-- A row over the claimed stage-3 byte bound: `file_size = 1024001`
while `max_size_kbs * 1024 = 1024000` for the default configuration. -/
def c3row : Row := { sampleRow with file_size := 1024001 }

/-- A configuration admitting a zero average line length into stage 6
(stage 5 is `ave_ll > min_ave_ll`, so `min_ave_ll = -1` lets `0` through). -/
def c4cfg : FilterConfig := { moderateConfig with min_ave_ll := -1 }

/-- A row with a zero `ave_ll` divisor and a positive `file_size`. -/
def c4row : Row := { sampleRow with ave_ll := 0, file_size := 100 }

/-- A row failing both the stage-1 predicate (`1000 > 600`) and the stage-4
predicate (`0.99` is not `< 0.975` under the moderate thresholds). -/
def c5row : Row := { sampleRow with max_ll := 1000, alphanum_frac := 0.99 }

/-- A row sitting exactly on the stage-5 boundary: `ave_ll = min_ave_ll = 16`
under the moderate thresholds. -/
def c6row : Row := { sampleRow with ave_ll := 16 }

/-- A row sitting exactly on the stage-1 upper boundary:
`max_ll = 600 = moderateConfig.max_ll`. -/
def c6maxRow : Row := { sampleRow with max_ll := 600 }

/-- External-parser stub: every content string parses. -/
def parseOk : String → ParseOutcome := fun _ => ParseOutcome.ok

/-- External-parser stub: every content string raises SyntaxError. -/
def parseSyn : String → ParseOutcome := fun _ => ParseOutcome.synError

/-! Helper lemmas about the funnel bookkeeping. -/

/-- Filtering by a predicate and then by its negation selects nothing:
this is exactly the shape of each stage's reject capture, where
`_df[~filter_flag]` is evaluated on the frame already reassigned to
`_df[filter_flag]`. -/
theorem filter_filter_not {α : Type} (p : α → Bool) (l : List α) :
    (l.filter p).filter (fun a => ! p a) = [] := by
  induction l with
  | nil => rfl
  | cons a t ih =>
    by_cases h : p a
    · simp [List.filter_cons, h, ih]
    · simp [List.filter_cons, h, ih]

/-- A stage started with an empty ledger ends with an empty ledger:
its own capture is empty by `filter_filter_not`. -/
theorem applyStage_snd_eq_nil (p : Row → Bool) (reason : Reason)
    (st : List (Nat × Row) × List LedgerEntry) (h : st.2 = []) :
    (applyStage p reason st).2 = [] := by
  simp [applyStage, filter_filter_not, h, sortByIdx]

/-- The rejection ledger produced by `filter_parquet_file` is ALWAYS empty:
every stage computes its reject capture from the already-filtered frame. -/
theorem rejected_always_empty (cfg : FilterConfig) (parse : String → ParseOutcome)
    (rows : List Row) : (filter_parquet_file cfg parse rows).2 = [] := by
  simp only [filter_parquet_file]
  exact applyStage_snd_eq_nil _ _ _ (applyStage_snd_eq_nil _ _ _
    (applyStage_snd_eq_nil _ _ _ (applyStage_snd_eq_nil _ _ _
      (applyStage_snd_eq_nil _ _ _ (applyStage_snd_eq_nil _ _ _
        (applyStage_snd_eq_nil _ _ _ rfl))))))

/-! Claim theorems. -/

/-- Claim C1 (code_bug evidence): the kept and rejected tables do NOT
partition the input.  A one-row table whose row fails stage 1
(`max_line_length = 1000 > 600`) comes back as `([], [])`: the row is in
neither table, because every stage computes its reject capture
`_df[~filter_flag]` after `_df` has already been reassigned to
`_df[filter_flag]`, so the capture is always empty and failing rows are
silently discarded. -/
theorem c1_partition_violated :
    ([c1row] ≠ ([] : List Row)) ∧
    filter_parquet_file moderateConfig parseOk [c1row] = ([], []) := by
  with_unfolding_all decide

/-- Claim C2 (code_bug evidence): the spec's section-8 scenario row
(`file_size=200, avg_line_length=20, max_line_length=30,
alphanum_fraction=0.5, content="x=1"`, moderate preset) passes all six
numeric stages and its content parses, yet the pipeline returns
`([], [])`: the stage-7 keep mask is `~test_source_code_compatible`
(source line 154), so the successfully-parsing row is dropped - and the
reject capture defect keeps it out of the rejected table as well. -/
theorem c2_stage7_inverted :
    (stage1pass moderateConfig sampleRow && stage2pass moderateConfig sampleRow &&
     stage3pass moderateConfig sampleRow && stage4pass moderateConfig sampleRow &&
     stage5pass moderateConfig sampleRow && stage6pass moderateConfig sampleRow) = true ∧
    test_source_code_compatible (parseOk sampleRow.content) = true ∧
    filter_parquet_file moderateConfig parseOk [sampleRow] = ([], []) := by
  with_unfolding_all decide

/-- Claim C3 (counterexample): under the default threshold
`max_size_kbs = 1000`, a row with `file_size = 1024001` bytes passes
stage 3 (it survives the stage applied to a state that reached it),
although `file_size > max_size_kbs * 1024 = 1024000`, refuting the claimed
`file_size <= max_size_kbs * 1024` bound. -/
theorem c3_boundary_counterexample :
    stage3pass defaultConfig c3row = true ∧
    (applyStage (stage3pass defaultConfig) Reason.file_too_large
      ([(0, c3row)], [])).1 = [(0, c3row)] ∧
    defaultConfig.max_size_kbs * 1024 < c3row.file_size := by
  refine ⟨by decide, ?_, by decide⟩
  have h : stage3pass defaultConfig c3row = true := by decide
  simp [applyStage, h, sortByIdx, filter_filter_not]

/-- Claim C3 (amended): stage 3 uses Python floor division
(`file_size // 1024 <= max_size_kbs`, source line 117), so a row passes
stage 3 iff `file_size <= max_size_kbs * 1024 + 1023`. -/
theorem c3_stage3_floor_div (cfg : FilterConfig) (r : Row) :
    stage3pass cfg r = decide (r.file_size ≤ cfg.max_size_kbs * 1024 + 1023) := by
  have h : Int.fdiv r.file_size 1024 = r.file_size / 1024 :=
    Int.fdiv_eq_ediv _ (by norm_num)
  simp only [stage3pass, h]
  exact decide_eq_decide.mpr (by omega)

/-- Claim C4 (counterexample): a row with `avg_line_length = 0` and
`file_size = 100` reaches stage 6 under `min_ave_ll = -1` (it passes
stages 1-5) and then PASSES stage 6 - numpy evaluates `100 / 0.0` to
`+inf`, which satisfies `>= min_lines` - instead of failing it as the
claim requires; with a non-parsing content it even ends up in the kept
table, and the rejected table is empty, so it is never tagged
`min_lines`. -/
theorem c4_zero_divisor_counterexample :
    c4row.ave_ll = 0 ∧
    (stage1pass c4cfg c4row && stage2pass c4cfg c4row && stage3pass c4cfg c4row &&
     stage4pass c4cfg c4row && stage5pass c4cfg c4row) = true ∧
    stage6pass c4cfg c4row = true ∧
    filter_parquet_file c4cfg parseSyn [c4row] = ([c4row], []) := by
  with_unfolding_all decide

/-- Claim C4 (amended): for a row whose `avg_line_length` is exactly zero,
stage 6 is deterministic and total (no arithmetic fault is modelled or
raised - numpy produces `inf`/`nan`), and the row passes stage 6 iff its
`file_size` is positive (`+inf >= min_lines`); it fails only when
`file_size <= 0` (`nan` / `-inf` comparisons are false). -/
theorem c4_zero_divisor_amended (cfg : FilterConfig) (r : Row) (h : r.ave_ll = 0) :
    stage6pass cfg r = decide (r.file_size > 0) := by
  simp [stage6pass, h]

/-- Claim C4 (witness): the amended statement applied to the concrete
zero-divisor row. -/
theorem c4_zero_divisor_witness :
    stage6pass c4cfg c4row = decide (c4row.file_size > 0) :=
  c4_zero_divisor_amended c4cfg c4row (by with_unfolding_all decide)

/-- Claim C5 (code_bug evidence): a row failing both the stage-1 and the
stage-4 predicates is recorded ZERO times, not once: the pipeline returns
an empty rejected table (the reject captures are computed from the
already-filtered frames), so the row is tagged neither `max_ll` nor
`alphanum_frac` - it simply vanishes. -/
theorem c5_first_failure_not_recorded :
    stage1pass moderateConfig c5row = false ∧
    stage4pass moderateConfig c5row = false ∧
    filter_parquet_file moderateConfig parseOk [c5row] = ([], []) := by
  with_unfolding_all decide

/-- Claim C6 (counterexample): a row with `ave_ll = min_ave_ll = 16` under
the moderate thresholds reaches stage 5 (it passes stages 1-4), fails the
stage-5 predicate, and yet the returned rejected table is empty - the row
is NOT tagged `ave_ll` as the claim states; it is silently dropped. -/
theorem c6_tagging_counterexample :
    c6row.ave_ll = ((moderateConfig.min_ave_ll : Int) : Rat) ∧
    (stage1pass moderateConfig c6row && stage2pass moderateConfig c6row &&
     stage3pass moderateConfig c6row && stage4pass moderateConfig c6row) = true ∧
    filter_parquet_file moderateConfig parseOk [c6row] = ([], []) := by
  with_unfolding_all decide

/-- Claim C6 (amended): the boundary semantics hold at the predicate level -
a row with `max_line_length = max_ll` passes stage 1 (inclusive upper
bound, provided the configuration's window is non-empty,
`min_max_ll <= max_ll`), and a row with `avg_line_length = min_ave_ll`
fails the stage-5 predicate (exclusive lower bound) and is removed from
the survivor set; it is however not tagged `ave_ll`, because the reject
capture defect leaves the rejected table empty. -/
theorem c6_boundary_amended (cfg : FilterConfig) (r s : Row)
    (hr : r.max_ll = cfg.max_ll) (hw : cfg.min_max_ll ≤ cfg.max_ll)
    (hs : s.ave_ll = ((cfg.min_ave_ll : Int) : Rat)) :
    stage1pass cfg r = true ∧ stage5pass cfg s = false := by
  constructor
  · simp [stage1pass, hr, hw]
  · simp [stage5pass, hs]

/-- Claim C6 (witness): the amended statement applied to the moderate
thresholds, with the row on the stage-1 upper boundary and the row on the
stage-5 lower boundary. -/
theorem c6_boundary_witness :
    stage1pass moderateConfig c6maxRow = true ∧ stage5pass moderateConfig c6row = false :=
  c6_boundary_amended moderateConfig c6maxRow c6row (by with_unfolding_all decide)
    (by with_unfolding_all decide) (by with_unfolding_all decide)

/-- Claim C7: the stage-7 compatibility check is total over the parser's
outcome domain (success, SyntaxError, ValueError - the `except` clauses of
source lines 358-363): for every content string it returns a boolean,
`true` exactly when the parse succeeds and `false` on either exception. -/
theorem c7_parse_check_total (parse : String → ParseOutcome) (s : String) :
    test_source_code_compatible (parse s) = decide (parse s = ParseOutcome.ok) := by
  cases h : parse s <;> rfl

/-- Claim C8: the pipeline is a pure function of the configuration, the
external parser and the input table - two runs on the same input with the
same configuration produce identical kept and rejected tables. -/
theorem c8_pipeline_deterministic (cfg : FilterConfig) (parse : String → ParseOutcome)
    (rows : List Row) (out1 out2 : List Row × List LedgerEntry)
    (h1 : filter_parquet_file cfg parse rows = out1)
    (h2 : filter_parquet_file cfg parse rows = out2) : out1 = out2 :=
  h1.symm.trans h2

/-- Claim C8 (witness): two concrete runs on the sample row agree. -/
theorem c8_pipeline_deterministic_witness :
    (([sampleRow], []) : List Row × List LedgerEntry) = (([sampleRow], [])) :=
  c8_pipeline_deterministic moderateConfig parseSyn [sampleRow] ([sampleRow], [])
    ([sampleRow], []) (by with_unfolding_all decide) (by with_unfolding_all decide)

/-- A stage only narrows the survivor frame: its first component is a
filter of the incoming frame, hence a sublist of anything the incoming
frame is a sublist of. -/
theorem applyStage_fst_sublist (p : Row → Bool) (reason : Reason)
    (st : List (Nat × Row) × List LedgerEntry) (l : List (Nat × Row))
    (h : st.1.Sublist l) : ((applyStage p reason st).1).Sublist l :=
  (List.filter_sublist _).trans h

/-- Claim C9: the kept table is an order-preserving subsequence of the
input table - every kept row is one of the input rows with all its
attribute values unchanged, and kept rows appear in their original
relative order.  (No `reason` tag is attached to kept rows: kept entries
have type `Row`, only ledger entries carry a `Reason`.) -/
theorem c9_kept_sublist (cfg : FilterConfig) (parse : String → ParseOutcome)
    (rows : List Row) : ((filter_parquet_file cfg parse rows).1).Sublist rows := by
  have h1 := applyStage_fst_sublist (stage1pass cfg) Reason.max_ll
    (rows.enum, []) rows.enum (List.Sublist.refl _)
  have h2 := applyStage_fst_sublist (stage2pass cfg) Reason.file_too_small _ _ h1
  have h3 := applyStage_fst_sublist (stage3pass cfg) Reason.file_too_large _ _ h2
  have h4 := applyStage_fst_sublist (stage4pass cfg) Reason.alphanum_frac _ _ h3
  have h5 := applyStage_fst_sublist (stage5pass cfg) Reason.ave_ll _ _ h4
  have h6 := applyStage_fst_sublist (stage6pass cfg) Reason.min_lines _ _ h5
  have h7 := applyStage_fst_sublist (stage7flag parse) Reason.python2 _ _ h6
  have hm := h7.map (fun ir : Nat × Row => ir.2)
  have he : rows.enum.map (fun ir : Nat × Row => ir.2) = rows := List.enum_map_snd rows
  rw [he] at hm
  exact hm

/-- Claim C10: `glob_pq_paths` returns a match list only when one of the
three patterns captured strictly more than two paths, and whenever every
pattern captures at most two paths - even if matching Parquet files do
exist - it raises FileNotFoundError. -/
theorem c10_glob_threshold (m1 m2 m3 : List String) :
    (m1.length ≤ 2 → m2.length ≤ 2 → m3.length ≤ 2 →
      glob_pq_paths m1 m2 m3 = Except.error "FileNotFoundError") ∧
    (∀ l, glob_pq_paths m1 m2 m3 = Except.ok l → 2 < l.length) := by
  constructor
  · intro h1 h2 h3
    have e1 : check_capture m1 = false := by
      simp only [check_capture, decide_eq_false_iff_not]; omega
    have e2 : check_capture m2 = false := by
      simp only [check_capture, decide_eq_false_iff_not]; omega
    have e3 : check_capture m3 = false := by
      simp only [check_capture, decide_eq_false_iff_not]; omega
    simp [glob_pq_paths, e1, e2, e3]
  · intro l hl
    rw [glob_pq_paths] at hl
    split_ifs at hl with h1 h2 h3
    · injection hl with h; subst h
      simpa [check_capture] using h1
    · injection hl with h; subst h
      simpa [check_capture] using h2
    · injection hl with h; subst h
      simpa [check_capture] using h3

/-- Claim C10 (witness): a root with exactly two matching Parquet files
under every pattern raises FileNotFoundError even though matches exist,
and a successful three-file capture has length above the threshold. -/
theorem c10_glob_threshold_witness :
    glob_pq_paths ["a.parquet", "b.parquet"] ["a.parquet", "b.parquet"]
      ["a.parquet", "b.parquet"] = Except.error "FileNotFoundError" ∧
    2 < (["a.parquet", "b.parquet", "c.parquet"] : List String).length :=
  ⟨(c10_glob_threshold ["a.parquet", "b.parquet"] ["a.parquet", "b.parquet"]
      ["a.parquet", "b.parquet"]).1 (by decide) (by decide) (by decide),
   (c10_glob_threshold ["a.parquet", "b.parquet", "c.parquet"] [] []).2
     ["a.parquet", "b.parquet", "c.parquet"] (by rfl)⟩

end Curation
